import Mathlib

set_option maxHeartbeats 1000000

namespace NapcatAichat

/-!
Shallow embedding of the napcat-plugin-aichat message pipeline.

Definitions are translated from `src/handlers/message-handler.ts`,
`src/core/state.ts`, `src/config.ts` and `src/types.ts`.  JavaScript
numbers are modelled as `Int` (timestamps in milliseconds; the values this
plugin computes are integral), JS `Map`s and plain-object indexes as total
functions into `Option`, and the external regex engine and HTTP transport
as explicit oracles, with thrown exceptions represented as explicit
outcome values.  Loggers are side-effect free in the model (an initialized
plugin context is assumed, which is the state in which the host invokes
the handler).  JS string falsiness (`""` is falsy) is modelled by explicit
comparison with the empty string.
-/

/-- Per-group overrides (`src/types.ts`, `GroupConfig`): every field is
optional in the source, hence `Option` here. -/
structure GroupConfig where
  enabled : Option Bool
  aiEnabled : Option Bool
  rateLimitPerMinute : Option Int
  deriving Repr, DecidableEq

/-- Plugin configuration (`src/types.ts`, `PluginConfig`).  The field
`commandPfx` models the source field named `commandPrefix`, and
`tencentVisitorBizIdPfx` models `tencentVisitorBizIdPrefix` (renamed for
this development only).  `groupConfigs` models the
`Record<string, GroupConfig>` index as a total function. -/
structure PluginConfig where
  enabled : Bool
  debug : Bool
  commandPfx : String
  cooldownSeconds : Int
  groupConfigs : String → Option GroupConfig
  aiServiceType : String
  aiApiUrl : String
  aiApiKey : String
  aiModel : String
  tencentBotAppKey : String
  tencentVisitorBizIdPfx : String
  rateLimitPerMinute : Int
  masterQqs : List String
  blacklistQqs : List String
  blockedPatterns : List String
  aiSystemPrompt : String
  aiContextLength : Int

/-- `DEFAULT_CONFIG` from `src/config.ts`. -/
def DEFAULT_CONFIG : PluginConfig where
  enabled := true
  debug := false
  commandPfx := "#cmd"
  cooldownSeconds := 60
  groupConfigs := fun _ => none
  aiServiceType := "openai"
  aiApiUrl := "https://api.openai.com/v1/chat/completions"
  aiApiKey := ""
  aiModel := "gpt-3.5-turbo"
  tencentBotAppKey := ""
  tencentVisitorBizIdPfx := "napcat_"
  rateLimitPerMinute := 10
  masterQqs := []
  blacklistQqs := []
  blockedPatterns := []
  aiSystemPrompt := "你是一个智能助手，帮助用户解答问题。"
  aiContextLength := 10

/-- JS `String.prototype.trim`: strip leading and trailing whitespace.
Implemented over the character list (rather than with the byte-position
based `String.trim`) so that concrete instances evaluate by kernel
reduction. -/
def strTrim (s : String) : String :=
  ⟨((s.data.dropWhile Char.isWhitespace).reverse.dropWhile Char.isWhitespace).reverse⟩

/-- JS `String.prototype.startsWith`, over the character list. -/
def strStartsWith (s pfix : String) : Bool :=
  pfix.data.isPrefixOf s.data

/-- JS `String.prototype.slice(n)` for `n ≥ 0` on strings, over the
character list. -/
def strDrop (s : String) (n : Nat) : String :=
  ⟨s.data.drop n⟩

/-- JS `String.prototype.toLowerCase` (ASCII range, which covers the
command tokens compared against), over the character list. -/
def strToLower (s : String) : String :=
  ⟨s.data.map Char.toLower⟩

/-- The cooldown map `cooldownMap` (message-handler.ts line 20):
key `"{groupId}:{command}"`, value = expiry timestamp in ms. -/
abbrev CdMap := String → Option Int

/-- `getCooldownRemaining` (message-handler.ts lines 26-40).  Returns the
remaining seconds together with the (possibly lazily-evicted) map.
`Math.ceil((expireTime - now) / 1000)` on integral milliseconds equals
the floor division `(expireTime - now + 999) / 1000`.  The source tests
`!expireTime`,
which is also true for a stored value `0`; that case is kept as written. -/
def getCooldownRemaining (cfg : PluginConfig) (now : Int) (m : CdMap)
    (groupId cmd : String) : Int × CdMap :=
  if cfg.cooldownSeconds ≤ 0 then (0, m)
  else
    let key := groupId ++ ":" ++ cmd
    match m key with
    | none => (0, m)
    | some expireTime =>
      if expireTime = 0 then (0, m)
      else
        let remaining := (expireTime - now + 999) / 1000
        if remaining ≤ 0 then (0, fun k => if k = key then none else m k)
        else (remaining, m)

/-- `setCooldown` (message-handler.ts lines 43-47). -/
def setCooldown (cfg : PluginConfig) (now : Int) (m : CdMap)
    (groupId cmd : String) : CdMap :=
  if cfg.cooldownSeconds ≤ 0 then m
  else fun k =>
    if k = groupId ++ ":" ++ cmd then some (now + cfg.cooldownSeconds * 1000) else m k

/-- One rate-limit record (message-handler.ts line 52). -/
structure RateCell where
  count : Nat
  resetTime : Int
  deriving Repr, DecidableEq

/-- The rate-limit map `rateLimitMap` (message-handler.ts line 52). -/
abbrev RateMap := String → Option RateCell

/-- `checkRateLimit` (message-handler.ts lines 58-95).  Returns the
decision (`true` = over the limit, reject) and the updated map. -/
def checkRateLimit (cfg : PluginConfig) (now : Int) (m : RateMap)
    (key : String) : Bool × RateMap :=
  let rateLimit := cfg.rateLimitPerMinute
  if rateLimit = -1 then (false, m)
  else
    match m key with
    | none => (false, fun k => if k = key then some ⟨1, now + 60 * 1000⟩ else m k)
    | some info =>
      if info.resetTime ≤ now then
        (false, fun k => if k = key then some ⟨1, now + 60 * 1000⟩ else m k)
      else if rateLimit ≤ (info.count : Int) then
        (true, m)
      else
        (false, fun k => if k = key then some ⟨info.count + 1, info.resetTime⟩ else m k)

/-- Iterated `checkRateLimit` calls for one key at the given sequence of
timestamps, collecting the decisions. -/
def rateCalls (cfg : PluginConfig) (key : String) : List Int → RateMap → List Bool × RateMap
  | [], m => ([], m)
  | t :: ts, m =>
    let r := checkRateLimit cfg t m key
    let rest := rateCalls cfg key ts r.2
    (r.1 :: rest.1, rest.2)

/-- One chat turn (message-handler.ts line 100). -/
structure Turn where
  role : String
  content : String
  deriving Repr, DecidableEq

/-- `addMessageToHistory` (message-handler.ts lines 112-116): appends one
turn to the group's history. -/
def addMessageToHistory (m : String → List Turn) (groupId role content : String) :
    String → List Turn :=
  fun k => if k = groupId then m groupId ++ [⟨role, content⟩] else m k

/-- JS `Array.prototype.slice` with a single (possibly negative) start
index, as used in `history.slice(-aiContextLength)`. -/
def jsSlice {α : Type} (start : Int) (l : List α) : List α :=
  l.drop (if start < 0 then max ((l.length : Int) + start) 0
          else min start (l.length : Int)).toNat

/-- The fallback system prompt literal of message-handler.ts line 351. -/
def defaultSystemPrompt : String := "你是一个智能助手，帮助用户解答问题。"

/-- The `messages` array built by `getAIResponse`
(message-handler.ts lines 343-358): system turn, then
`history.slice(-aiContextLength)`, then the user's question. -/
def buildMessages (cfg : PluginConfig) (history : List Turn) (question : String) :
    List Turn :=
  ⟨"system", if cfg.aiSystemPrompt = "" then defaultSystemPrompt else cfg.aiSystemPrompt⟩ ::
    (jsSlice (-cfg.aiContextLength) history ++ [⟨"user", question⟩])

/-- The request `getAIResponse` posts: `{model, messages, temperature: 0.7}`
(the temperature is the constant 0.7 and is omitted from the model). -/
structure AIRequest where
  model : String
  messages : List Turn

/-- A truthy `data.error` payload: `message` models `error.message` with
`""` standing for an absent or falsy message; `raw` models
`JSON.stringify(error)`. -/
structure ErrObj where
  message : String
  raw : String
  deriving Repr, DecidableEq

/-- One element of `data.choices`; `content` models
`choices[i].message.content`. -/
structure Choice where
  content : String
  deriving Repr, DecidableEq

/-- The parsed JSON response body: `error` is `some` exactly when the body
has a truthy `error` field; `choices` is `some` when a `choices` array is
present. -/
structure RespData where
  error : Option ErrObj
  choices : Option (List Choice)

/-- Outcome of `response.json()`: a parse exception or parsed data. -/
inductive RespBody where
  | parseFail (msg : String)
  | parsed (d : RespData)

/-- Behaviour of one `fetch` call: the call throws (network error), or a
response arrives with an HTTP status, status text and body outcome.
`response.ok` is `200 ≤ status < 300` per the fetch specification. -/
inductive HttpOutcome where
  | throwErr (msg : String)
  | resp (status : Int) (statusText : String) (body : RespBody)

/-- `getAIResponse` (message-handler.ts lines 329-408) as a function of the
configuration, the stored history of the group, the question and the
transport behaviour.  Every exceptional transport outcome is an explicit
`HttpOutcome` value; the source's try/catch converts them to the returned
strings. -/
def getAIResponse (cfg : PluginConfig) (history : List Turn) (question : String)
    (http : AIRequest → HttpOutcome) : String :=
  if cfg.aiApiUrl = "" ∨ cfg.aiApiKey = "" then "请先在控制台配置AI API地址和API Key"
  else
    match http { model := cfg.aiModel, messages := buildMessages cfg history question } with
    | .throwErr m => "AI回复失败: " ++ m
    | .resp status statusText body =>
      if ¬ (200 ≤ status ∧ status < 300) then
        s!"AI API请求失败 ({status}): {statusText}"
      else
        match body with
        | .parseFail m => "AI回复失败: " ++ m
        | .parsed d =>
          match d.error with
          | some e => "AI API错误: " ++ (if e.message = "" then e.raw else e.message)
          | none =>
            match d.choices with
            | some (c :: _) => c.content
            | _ => "AI回复失败，请稍后再试"

/-- One message segment: `ty` models `segment.type`; `qq` models
`segment.data.qq` (as a string, `none` for a missing `data`/`qq`); `txt`
models `segment.data.text`. -/
structure Segment where
  ty : String
  qq : Option String
  txt : Option String
  deriving Repr, DecidableEq

/-- The `event.message` field: missing/falsy, a raw string, or an array of
segments. -/
inductive MessageField where
  | absent
  | str (s : String)
  | segs (l : List Segment)

/-- One inbound OB11 message event, restricted to the fields the pipeline
reads.  `raw_message` models `event.raw_message || ''` (already
defaulted); `senderRole` models `(event.sender as ...)?.role`. -/
structure Event where
  message_type : String
  raw_message : String
  group_id : Option Int
  user_id : Option Int
  senderRole : Option String
  message : MessageField

/-- Truthiness of `segment.data.qq` followed by
`String(segment.data.qq) === selfId` (message-handler.ts lines 299-305). -/
def segIsAtSelf (selfId : String) (s : Segment) : Bool :=
  if s.ty = "at" then
    match s.qq with
    | some q => if q = "" then false else q == selfId
    | none => false
  else false

/-- `isAtBot` (message-handler.ts lines 292-306). -/
def isAtBot (selfId : String) (msg : MessageField) : Bool :=
  match msg with
  | .segs l => l.any (segIsAtSelf selfId)
  | _ => false

/-- `extractQuestion` (message-handler.ts lines 311-324): concatenate the
truthy text of all `text` segments, then trim. -/
def extractQuestion (msg : MessageField) : String :=
  match msg with
  | .segs l =>
    (l.foldl (fun acc s =>
      if s.ty = "text" then
        match s.txt with
        | some t => if t = "" then acc else acc ++ t
        | none => acc
      else acc) "" |> strTrim)
  | _ => ""

/-- `isAdmin` (message-handler.ts lines 255-259). -/
def isAdmin (ev : Event) : Bool :=
  if ev.message_type = "group" then
    decide (ev.senderRole = some "admin" ∨ ev.senderRole = some "owner")
  else true

/-- `isMaster` (message-handler.ts lines 265-268). -/
def isMaster (cfg : PluginConfig) (userId : String) : Bool :=
  cfg.masterQqs.contains userId

/-- `hasAIManagePermission` (message-handler.ts lines 274-284); a
`user_id` of `0` is falsy in JS. -/
def hasAIManagePermission (cfg : PluginConfig) (ev : Event) : Bool :=
  if isAdmin ev then true
  else
    match ev.user_id with
    | some u => if u = 0 then false else isMaster cfg (toString u)
    | none => false

/-- `String(userId)` as used in the blacklist check (message-handler.ts
line 523); `String(undefined)` is the literal `"undefined"`. -/
def userIdStr (ev : Event) : String :=
  match ev.user_id with
  | some u => toString u
  | none => "undefined"

/-- `rawMessage.slice(prefix.length).trim().split(/\s+/)`: JS split of a
trimmed string on whitespace runs; splitting the empty string yields
`[""]`. -/
def jsSplitWs (s : String) : List String :=
  let t := strTrim s
  if t = "" then [""]
  else (t.split fun c => c.isWhitespace).filter (fun x => x ≠ "")

/-- The blocked-patterns loop of `handleMessage` (message-handler.ts lines
529-541): each pattern is compiled fresh (`rc`, the regex oracle, returns
`none` when `new RegExp(pattern)` throws, in which case the pattern is
skipped); the first valid pattern matching `text` blocks. -/
def isBlockedByPattern (rc : String → Option (String → Bool))
    (patterns : List String) (text : String) : Bool :=
  match patterns with
  | [] => false
  | p :: ps =>
    match rc p with
    | some f => if f text then true else isBlockedByPattern rc ps text
    | none => isBlockedByPattern rc ps text

/-- Runtime statistics (state.ts lines 113-117). -/
structure Stats where
  processed : Nat
  todayProcessed : Nat
  lastUpdateDay : String
  deriving Repr, DecidableEq

/-- `incrementProcessed` (state.ts lines 317-325). -/
def incrementProcessed (today : String) (s : Stats) : Stats :=
  let s1 := if s.lastUpdateDay ≠ today then
    { s with todayProcessed := 0, lastUpdateDay := today } else s
  { s1 with todayProcessed := s1.todayProcessed + 1, processed := s1.processed + 1 }

/-- `getUptimeFormatted` (state.ts lines 335-346); JS `%` on the
nonnegative operands that occur here agrees with `Int.emod`. -/
def getUptimeFormatted (ms : Int) : String :=
  let s := ms / 1000
  let m := s / 60
  let h := m / 60
  let d := h / 24
  if 0 < d then
    let hh := h % 24
    s!"{d}天{hh}小时"
  else if 0 < h then
    let mm := m % 60
    s!"{h}小时{mm}分钟"
  else if 0 < m then
    let ss := s % 60
    s!"{m}分钟{ss}秒"
  else s!"{s}秒"

/-- `isGroupEnabled` (state.ts lines 308-310):
`groupConfigs[groupId]?.enabled !== false`. -/
def isGroupEnabled (cfg : PluginConfig) (groupId : String) : Bool :=
  match cfg.groupConfigs groupId with
  | some gc => decide (gc.enabled ≠ some false)
  | none => true

/-- The `aiEnabled === false` test of message-handler.ts lines 432-433. -/
def aiDisabled (cfg : PluginConfig) (groupId : String) : Bool :=
  match cfg.groupConfigs groupId with
  | some gc => decide (gc.aiEnabled = some false)
  | none => false

/-- Spread merge `{...old, aiEnabled: b}` over a possibly-missing previous
group config (message-handler.ts line 501 with state.ts lines 297-303). -/
def mergeAiEnabled (old : Option GroupConfig) (b : Bool) : GroupConfig :=
  { old.getD ⟨none, none, none⟩ with aiEnabled := some b }

/-- `updateGroupConfig` (state.ts lines 297-303) specialised to the
`{aiEnabled}` patch used by the `ai enable`/`ai disable` command. -/
def updateGroupConfig (cfg : PluginConfig) (groupId : String) (b : Bool) : PluginConfig :=
  { cfg with groupConfigs := fun k =>
      if k = groupId then some (mergeAiEnabled (cfg.groupConfigs groupId) b)
      else cfg.groupConfigs k }

/-- The help text of message-handler.ts lines 445-452. -/
def helpText (pfx : String) : String :=
  "[= 插件帮助 =]\n" ++ pfx ++ " help - 显示帮助信息\n" ++ pfx ++ " ping - 测试连通性\n"
    ++ pfx ++ " status - 查看运行状态\n" ++ pfx ++ " ai enable - 启用AI功能\n"
    ++ pfx ++ " ai disable - 禁用AI功能"

/-- The environment of one pipeline run: the bot's resolved identity, the
transport behaviour, the regex engine, the clock and the current day
string.  `Date.now()` is sampled as the single value `now` for the one
event (the source samples it per call within microseconds of each other;
no claim depends on the difference). -/
structure Env where
  selfId : String
  http : AIRequest → HttpOutcome
  regex : String → Option (String → Bool)
  now : Int
  startTime : Int
  today : String

/-- The mutable process state touched by the pipeline: the configuration
singleton and the three maps, plus statistics. -/
structure PState where
  config : PluginConfig
  cooldownMap : CdMap
  rateLimitMap : RateMap
  historyMap : String → List Turn
  stats : Stats

/-- The status text of message-handler.ts lines 474-479. -/
def statusText (env : Env) (st : PState) : String :=
  "[= 插件状态 =]\n运行时长: " ++ getUptimeFormatted (env.now - env.startTime)
    ++ "\n今日处理: " ++ toString st.stats.todayProcessed
    ++ "\n总计处理: " ++ toString st.stats.processed

/-- `handleMessage` (message-handler.ts lines 416-571), returning the new
state and the contents of the replies sent (in order).  `sendReply`
catches internally and returns a Bool the source ignores, so replies are
recorded as values.  A `group_id` of `0` is falsy in JS (`!groupId`). -/
def handleMessage (env : Env) (ev : Event) (st : PState) : PState × List String :=
  let rawMessage := ev.raw_message
  if ev.message_type ≠ "group" then (st, [])
  else
    match ev.group_id with
    | none => (st, [])
    | some gid =>
      if gid = 0 then (st, [])
      else
        let gidS := toString gid
        if ¬ isGroupEnabled st.config gidS then (st, [])
        else if aiDisabled st.config gidS then (st, [])
        else
          let pfx := if st.config.commandPfx = "" then "#cmd" else st.config.commandPfx
          if strStartsWith rawMessage pfx then
            let args := jsSplitWs (strDrop rawMessage pfx.length)
            let subCommand := strToLower (args.headD "")
            if subCommand = "help" then (st, [helpText pfx])
            else if subCommand = "ping" then
              let r := getCooldownRemaining st.config env.now st.cooldownMap gidS "ping"
              if 0 < r.1 then
                let remaining := r.1
                ({ st with cooldownMap := r.2 }, [s!"请等待 {remaining} 秒后再试"])
              else
                ({ st with
                    cooldownMap := setCooldown st.config env.now r.2 gidS "ping",
                    stats := incrementProcessed env.today st.stats }, ["pong!"])
            else if subCommand = "status" then (st, [statusText env st])
            else if subCommand = "ai" then
              let aiSub := strToLower ((args[1]?).getD "")
              if aiSub = "enable" ∨ aiSub = "disable" then
                if ¬ hasAIManagePermission st.config ev then (st, ["你没有权限管理AI功能"])
                else
                  ({ st with config := updateGroupConfig st.config gidS (aiSub == "enable") },
                   [if aiSub = "enable" then "AI功能已启用" else "AI功能已禁用"])
              else (st, [])
            else (st, [])
          else if ¬ isAtBot env.selfId ev.message then (st, [])
          else if st.config.blacklistQqs.contains (userIdStr ev) then (st, [])
          else if isBlockedByPattern env.regex st.config.blockedPatterns rawMessage then (st, [])
          else
            let question := extractQuestion ev.message
            if question = "" then (st, [])
            else
              let r := checkRateLimit st.config env.now st.rateLimitMap gidS
              if r.1 then ({ st with rateLimitMap := r.2 }, ["当前请求过于频繁，请稍后再试"])
              else
                let st1 : PState := { st with rateLimitMap := r.2 }
                let aiResponse := getAIResponse st1.config (st1.historyMap gidS) question env.http
                ({ st1 with
                    historyMap := addMessageToHistory
                      (addMessageToHistory st1.historyMap gidS "user" question)
                      gidS "assistant" aiResponse,
                    stats := incrementProcessed env.today st1.stats },
                 [aiResponse])

/-- A JSON-like runtime value, the possible shapes of the raw
configuration passed to `sanitizeConfig` (state.ts).  Numbers are modelled
as `Int`: the raw document comes from `JSON.parse`, which cannot produce
`NaN`/`Infinity`, and no claim depends on fractional values. -/
inductive JsVal where
  | null
  | bool (b : Bool)
  | num (n : Int)
  | str (s : String)
  | arr (l : List JsVal)
  | obj (fields : List (String × JsVal))
  deriving Repr

/-- The string-field rule of sanitizeConfig for comma-separated list
fields (state.ts lines 55, 62, 69): split on commas, trim each piece,
drop empty pieces. -/
def jsStrList (s : String) : List String :=
  ((s.splitOn ",").map strTrim).filter (fun x => x ≠ "")

/-- The array-field rule of sanitizeConfig for list fields (state.ts lines
52, 59, 66): keep only the string elements. -/
def strElems (l : List JsVal) : List String :=
  l.filterMap (fun v => match v with | .str s => some s | _ => none)

/-- One `typeof x === 'boolean'` field check with fallback. -/
def pickBool (o : Option JsVal) (d : Bool) : Bool :=
  match o with
  | some (.bool b) => b
  | _ => d

/-- One `typeof x === 'string'` field check with fallback. -/
def pickStr (o : Option JsVal) (d : String) : String :=
  match o with
  | some (.str s) => s
  | _ => d

/-- One `typeof x === 'number'` field check with fallback. -/
def pickNum (o : Option JsVal) (d : Int) : Int :=
  match o with
  | some (.num n) => n
  | _ => d

/-- The list-field rule: an array keeps its string elements, a string is
split on commas, anything else falls back to the default. -/
def pickStrList (o : Option JsVal) (d : List String) : List String :=
  match o with
  | some (.arr l) => strElems l
  | some (.str s) => jsStrList s
  | _ => d

/-- The `aiServiceType` rule (state.ts lines 40-42): a string equal to
`"openai"` or `"tencent"`, else the default. -/
def pickServiceType (o : Option JsVal) (d : String) : String :=
  match o with
  | some (.str s) => if s = "openai" ∨ s = "tencent" then s else d
  | _ => d

/-- The `aiContextLength` rule (state.ts lines 73-76):
`Math.max(2, Math.min(30, n))` for a number, else the default 10. -/
def pickCtxLen (o : Option JsVal) : Int :=
  match o with
  | some (.num n) => max 2 (min 30 n)
  | _ => DEFAULT_CONFIG.aiContextLength

/-- Group-config entry sanitisation (state.ts lines 82-86). -/
def sanitizeGroupConfig (gfs : List (String × JsVal)) : GroupConfig where
  enabled := match gfs.lookup "enabled" with | some (.bool b) => some b | _ => none
  aiEnabled := match gfs.lookup "aiEnabled" with | some (.bool b) => some b | _ => none
  rateLimitPerMinute := match gfs.lookup "rateLimitPerMinute" with | some (.num n) => some n | _ => none

/-- `groupConfigs` sanitisation (state.ts lines 78-89): entries are
processed in order, later entries overwriting earlier ones; non-object
entries are skipped. -/
def sanitizeGroupConfigs (v : Option JsVal) : String → Option GroupConfig :=
  match v with
  | some (.obj entries) =>
    entries.foldl (fun acc e =>
      match e.2 with
      | .obj gfs => fun k => if k = e.1 then some (sanitizeGroupConfig gfs) else acc k
      | _ => acc) (fun _ => none)
  | _ => fun _ => none

/-- `sanitizeConfig` (state.ts lines 29-92).  A non-object input (`null`,
array, or any primitive) yields the defaults with an empty `groupConfigs`. -/
def sanitizeConfig (raw : JsVal) : PluginConfig :=
  match raw with
  | .obj fs =>
    { enabled := pickBool (fs.lookup "enabled") DEFAULT_CONFIG.enabled
      debug := pickBool (fs.lookup "debug") DEFAULT_CONFIG.debug
      commandPfx := pickStr (fs.lookup "commandPrefix") DEFAULT_CONFIG.commandPfx
      cooldownSeconds := pickNum (fs.lookup "cooldownSeconds") DEFAULT_CONFIG.cooldownSeconds
      groupConfigs := sanitizeGroupConfigs (fs.lookup "groupConfigs")
      aiServiceType := pickServiceType (fs.lookup "aiServiceType") DEFAULT_CONFIG.aiServiceType
      aiApiUrl := pickStr (fs.lookup "aiApiUrl") DEFAULT_CONFIG.aiApiUrl
      aiApiKey := pickStr (fs.lookup "aiApiKey") DEFAULT_CONFIG.aiApiKey
      aiModel := pickStr (fs.lookup "aiModel") DEFAULT_CONFIG.aiModel
      tencentBotAppKey := pickStr (fs.lookup "tencentBotAppKey") DEFAULT_CONFIG.tencentBotAppKey
      tencentVisitorBizIdPfx :=
        pickStr (fs.lookup "tencentVisitorBizIdPrefix") DEFAULT_CONFIG.tencentVisitorBizIdPfx
      rateLimitPerMinute :=
        pickNum (fs.lookup "rateLimitPerMinute") DEFAULT_CONFIG.rateLimitPerMinute
      masterQqs := pickStrList (fs.lookup "masterQqs") DEFAULT_CONFIG.masterQqs
      blacklistQqs := pickStrList (fs.lookup "blacklistQqs") DEFAULT_CONFIG.blacklistQqs
      blockedPatterns := pickStrList (fs.lookup "blockedPatterns") DEFAULT_CONFIG.blockedPatterns
      aiSystemPrompt := pickStr (fs.lookup "aiSystemPrompt") DEFAULT_CONFIG.aiSystemPrompt
      aiContextLength := pickCtxLen (fs.lookup "aiContextLength") }
  | _ => { DEFAULT_CONFIG with groupConfigs := fun _ => none }

/-! Theorems.  Each claim of the specification is settled by exactly one
theorem below; helper lemmas precede them. -/

lemma checkRateLimit_fresh (cfg : PluginConfig) (now : Int) (m : RateMap) (key : String)
    (hNe : cfg.rateLimitPerMinute ≠ -1) (hm : m key = none) :
    checkRateLimit cfg now m key =
      (false, fun k => if k = key then some ⟨1, now + 60 * 1000⟩ else m k) := by
  simp [checkRateLimit, hNe, hm]

lemma checkRateLimit_reset (cfg : PluginConfig) (now : Int) (m : RateMap) (key : String)
    (cell : RateCell) (hNe : cfg.rateLimitPerMinute ≠ -1) (hm : m key = some cell)
    (ht : cell.resetTime ≤ now) :
    checkRateLimit cfg now m key =
      (false, fun k => if k = key then some ⟨1, now + 60 * 1000⟩ else m k) := by
  simp [checkRateLimit, hNe, hm, ht]

lemma checkRateLimit_reject (cfg : PluginConfig) (now : Int) (m : RateMap) (key : String)
    (cell : RateCell) (hNe : cfg.rateLimitPerMinute ≠ -1) (hm : m key = some cell)
    (ht : now < cell.resetTime) (hc : cfg.rateLimitPerMinute ≤ (cell.count : Int)) :
    checkRateLimit cfg now m key = (true, m) := by
  simp [checkRateLimit, hNe, hm, not_le.mpr ht, hc]

lemma checkRateLimit_incr (cfg : PluginConfig) (now : Int) (m : RateMap) (key : String)
    (cell : RateCell) (hNe : cfg.rateLimitPerMinute ≠ -1) (hm : m key = some cell)
    (ht : now < cell.resetTime) (hc : (cell.count : Int) < cfg.rateLimitPerMinute) :
    checkRateLimit cfg now m key =
      (false, fun k => if k = key then some ⟨cell.count + 1, cell.resetTime⟩ else m k) := by
  simp [checkRateLimit, hNe, hm, not_le.mpr ht, not_le.mpr hc]

lemma range_map_decide_shift (N c n : Nat) :
    (List.range (n + 1)).map (fun j => decide (N ≤ c + j)) =
      decide (N ≤ c) :: (List.range n).map (fun j => decide (N ≤ (c + 1) + j)) := by
  rw [List.range_succ_eq_map, List.map_cons, List.map_map]
  congr 1
  exact List.map_congr_left fun a _ => by
    simp only [Function.comp, Nat.succ_eq_add_one, decide_eq_decide]; omega

lemma range_map_decide_shift_ge (N c n : Nat) (h : N ≤ c) :
    (List.range (n + 1)).map (fun j => decide (N ≤ c + j)) =
      true :: (List.range n).map (fun j => decide (N ≤ c + j)) := by
  rw [List.range_succ_eq_map, List.map_cons, List.map_map]
  have htail : (List.range n).map ((fun j => decide (N ≤ c + j)) ∘ Nat.succ) =
      (List.range n).map (fun j => decide (N ≤ c + j)) :=
    List.map_congr_left fun a _ => by
      simp only [Function.comp, Nat.succ_eq_add_one, decide_eq_decide]; omega
  rw [htail]
  simp [h]

lemma rateCalls_window (cfg : PluginConfig) (key : String)
    (hN : 1 ≤ cfg.rateLimitPerMinute) :
    ∀ (ts : List Int) (m : RateMap) (c : Nat) (R : Int),
      1 ≤ c → c ≤ cfg.rateLimitPerMinute.toNat →
      m key = some ⟨c, R⟩ → (∀ t ∈ ts, t < R) →
      (rateCalls cfg key ts m).1 =
        (List.range ts.length).map (fun j => decide (cfg.rateLimitPerMinute.toNat ≤ c + j))
      ∧ (rateCalls cfg key ts m).2 =
        fun k => if k = key then some ⟨min (c + ts.length) cfg.rateLimitPerMinute.toNat, R⟩
                 else m k := by
  have hNe : cfg.rateLimitPerMinute ≠ -1 := by omega
  intro ts
  induction ts with
  | nil =>
    intro m c R hc1 hcN hm hts
    refine ⟨by simp [rateCalls], ?_⟩
    funext k
    by_cases hk : k = key
    · simp [rateCalls, hk, hm, Nat.min_eq_left hcN]
    · simp [rateCalls, hk]
  | cons t ts ih =>
    intro m c R hc1 hcN hm hts
    have ht : t < R := hts t (List.mem_cons_self t ts)
    have hts' : ∀ x ∈ ts, x < R := fun x hx => hts x (List.mem_cons_of_mem t hx)
    by_cases hfull : cfg.rateLimitPerMinute ≤ (c : Int)
    · have hcr := checkRateLimit_reject cfg t m key ⟨c, R⟩ hNe hm ht hfull
      have h1 : (rateCalls cfg key (t :: ts) m).1 = true :: (rateCalls cfg key ts m).1 := by
        simp [rateCalls, hcr]
      have h2 : (rateCalls cfg key (t :: ts) m).2 = (rateCalls cfg key ts m).2 := by
        simp [rateCalls, hcr]
      obtain ⟨ih1, ih2⟩ := ih m c R hc1 hcN hm hts'
      have hNc : cfg.rateLimitPerMinute.toNat ≤ c := by omega
      constructor
      · rw [h1, ih1, List.length_cons, range_map_decide_shift_ge _ _ _ hNc]
      · rw [h2, ih2]
        funext k
        by_cases hk : k = key
        · rw [hk, if_pos rfl, if_pos rfl,
            Nat.min_eq_right (by omega), Nat.min_eq_right (by omega)]
        · simp [hk]
    · push_neg at hfull
      have hcr := checkRateLimit_incr cfg t m key ⟨c, R⟩ hNe hm ht hfull
      have hm'key : (fun k => if k = key then some (⟨c + 1, R⟩ : RateCell) else m k) key =
          some ⟨c + 1, R⟩ := by simp
      obtain ⟨ih1, ih2⟩ :=
        ih (fun k => if k = key then some ⟨c + 1, R⟩ else m k) (c + 1) R
          (by omega) (by omega) hm'key hts'
      have h1 : (rateCalls cfg key (t :: ts) m).1 =
          false :: (rateCalls cfg key ts (fun k => if k = key then some ⟨c + 1, R⟩ else m k)).1 := by
        simp [rateCalls, hcr]
      have h2 : (rateCalls cfg key (t :: ts) m).2 =
          (rateCalls cfg key ts (fun k => if k = key then some ⟨c + 1, R⟩ else m k)).2 := by
        simp [rateCalls, hcr]
      constructor
      · rw [h1, ih1, List.length_cons, range_map_decide_shift]
        congr 1
        have : ¬ cfg.rateLimitPerMinute.toNat ≤ c := by omega
        simp [this]
      · rw [h2, ih2]
        funext k
        by_cases hk : k = key
        · rw [hk, if_pos rfl, if_pos rfl, List.length_cons,
            show c + 1 + ts.length = c + (ts.length + 1) from by omega]
        · simp [hk]

/-- C1: with a configured rate limit `N ≥ 1`, starting from a fresh or
expired window at time `t0`, the calls within the same 60-second window
are allowed (return `false`) exactly while the zero-based call index is
below `N` — i.e. the first `N` calls are allowed and the `(N+1)`-th and
all later ones are rejected — the stored cell holds count
`min (calls, N)` with reset time `t0 + 60s` (so a rejected call does not
increment the count), other keys are untouched, and (last conjunct) any
call hitting a full window leaves the map completely unchanged. -/
theorem C1_checkRateLimit_window (cfg : PluginConfig) (key : String) (m : RateMap)
    (t0 : Int) (ts : List Int) (hN : 1 ≤ cfg.rateLimitPerMinute)
    (hfresh : m key = none ∨ ∃ cell, m key = some cell ∧ cell.resetTime ≤ t0)
    (hts : ∀ t ∈ ts, t < t0 + 60 * 1000) :
    (rateCalls cfg key (t0 :: ts) m).1 =
      (List.range (ts.length + 1)).map (fun j => decide (cfg.rateLimitPerMinute.toNat ≤ j))
    ∧ (rateCalls cfg key (t0 :: ts) m).2 =
      (fun k => if k = key then
          some ⟨min (ts.length + 1) cfg.rateLimitPerMinute.toNat, t0 + 60 * 1000⟩
        else m k)
    ∧ ∀ (m2 : RateMap) (now : Int) (cell : RateCell), m2 key = some cell →
        now < cell.resetTime → cfg.rateLimitPerMinute ≤ (cell.count : Int) →
        checkRateLimit cfg now m2 key = (true, m2) := by
  have hNe : cfg.rateLimitPerMinute ≠ -1 := by omega
  have hfirst : checkRateLimit cfg t0 m key =
      (false, fun k => if k = key then some ⟨1, t0 + 60 * 1000⟩ else m k) := by
    rcases hfresh with h | ⟨cell, hc, hR⟩
    · exact checkRateLimit_fresh cfg t0 m key hNe h
    · exact checkRateLimit_reset cfg t0 m key cell hNe hc hR
  have hm1 : (fun k => if k = key then some (⟨1, t0 + 60 * 1000⟩ : RateCell) else m k) key =
      some ⟨1, t0 + 60 * 1000⟩ := by simp
  obtain ⟨w1, w2⟩ :=
    rateCalls_window cfg key hN ts
      (fun k => if k = key then some ⟨1, t0 + 60 * 1000⟩ else m k) 1 (t0 + 60 * 1000)
      le_rfl (by omega) hm1 hts
  have h1 : (rateCalls cfg key (t0 :: ts) m).1 =
      false :: (rateCalls cfg key ts
        (fun k => if k = key then some ⟨1, t0 + 60 * 1000⟩ else m k)).1 := by
    simp [rateCalls, hfirst]
  have h2 : (rateCalls cfg key (t0 :: ts) m).2 =
      (rateCalls cfg key ts
        (fun k => if k = key then some ⟨1, t0 + 60 * 1000⟩ else m k)).2 := by
    simp [rateCalls, hfirst]
  refine ⟨?_, ?_, ?_⟩
  · rw [h1, w1]
    have hsplit : (List.range (ts.length + 1)).map
        (fun j => decide (cfg.rateLimitPerMinute.toNat ≤ j)) =
        decide (cfg.rateLimitPerMinute.toNat ≤ 0) ::
          (List.range ts.length).map (fun j => decide (cfg.rateLimitPerMinute.toNat ≤ 1 + j)) := by
      rw [List.range_succ_eq_map, List.map_cons, List.map_map]
      congr 1
      exact List.map_congr_left fun a _ => by
        simp only [Function.comp, Nat.succ_eq_add_one, decide_eq_decide]; omega
    rw [hsplit]
    congr 1
    have : ¬ cfg.rateLimitPerMinute.toNat ≤ 0 := by omega
    simp [this]
  · rw [h2, w2]
    funext k
    by_cases hk : k = key
    · rw [hk, if_pos rfl, if_pos rfl, show 1 + ts.length = ts.length + 1 from by omega]
    · simp [hk]
  · intro m2 now cell h ht hc
    exact checkRateLimit_reject cfg now m2 key cell hNe h ht hc

/-- Witness for C1 at a concrete input: limit 2, four calls at times
0, 1, 2, 3 in one window; the first two are allowed, the rest rejected. -/
theorem C1_checkRateLimit_window_witness :
    (rateCalls { DEFAULT_CONFIG with rateLimitPerMinute := 2 } "1" [0, 1, 2, 3]
      (fun _ => none)).1 = [false, false, true, true] := by
  have h := C1_checkRateLimit_window { DEFAULT_CONFIG with rateLimitPerMinute := 2 } "1"
    (fun _ => none) 0 [1, 2, 3] (by decide) (Or.inl rfl) (by decide)
  rw [h.1]
  decide

/-- C10: `checkRateLimit` reads only the global `rateLimitPerMinute`
setting: replacing the whole per-group override table `groupConfigs` by
any other table changes neither a single decision nor any call sequence's
decisions, so a per-group `rateLimitPerMinute` override never affects
rate limiting. -/
theorem C10_rateLimit_ignores_group_overrides (cfg : PluginConfig)
    (g2 : String → Option GroupConfig) :
    (∀ (now : Int) (m : RateMap) (key : String),
        checkRateLimit { cfg with groupConfigs := g2 } now m key =
          checkRateLimit cfg now m key)
    ∧ ∀ (times : List Int) (m : RateMap) (key : String),
        rateCalls { cfg with groupConfigs := g2 } key times m = rateCalls cfg key times m := by
  have hc : ∀ (now : Int) (m : RateMap) (key : String),
      checkRateLimit { cfg with groupConfigs := g2 } now m key =
        checkRateLimit cfg now m key := fun _ _ _ => rfl
  refine ⟨hc, ?_⟩
  intro times
  induction times with
  | nil => intro m key; rfl
  | cons t ts ih => intro m key; simp [rateCalls, hc, ih]

/-- C5: with `cooldownSeconds ≤ 0`, `setCooldown` is a no-op and
`getCooldownRemaining` returns 0 without touching the map.  With
`cooldownSeconds > 0`: a missing entry yields 0; an expired entry
(`expiry ≤ now`) yields 0 and is deleted; a live entry yields the ceiling
of the remaining seconds (characterised by
`1000*(r-1) < expiry - now ≤ 1000*r`) without mutation; and every entry
`setCooldown` writes at a real clock time is positive, justifying the
positivity hypotheses. -/
theorem C5_cooldown_gate (cfg : PluginConfig) (now : Int) (m : CdMap) (g c : String) :
    (cfg.cooldownSeconds ≤ 0 →
       setCooldown cfg now m g c = m ∧ getCooldownRemaining cfg now m g c = (0, m))
    ∧ (0 < cfg.cooldownSeconds →
       (m (g ++ ":" ++ c) = none → getCooldownRemaining cfg now m g c = (0, m))
     ∧ (∀ e : Int, m (g ++ ":" ++ c) = some e → 0 < e → e ≤ now →
          getCooldownRemaining cfg now m g c =
            (0, fun k => if k = g ++ ":" ++ c then none else m k))
     ∧ (∀ e : Int, m (g ++ ":" ++ c) = some e → 0 < e → now < e →
          ∃ r : Int, getCooldownRemaining cfg now m g c = (r, m)
            ∧ 1000 * (r - 1) < e - now ∧ e - now ≤ 1000 * r)
     ∧ (0 ≤ now →
          setCooldown cfg now m g c (g ++ ":" ++ c) = some (now + cfg.cooldownSeconds * 1000)
          ∧ 0 < now + cfg.cooldownSeconds * 1000)) := by
  constructor
  · intro h
    exact ⟨by simp [setCooldown, h], by simp [getCooldownRemaining, h]⟩
  · intro h
    have hns : ¬ cfg.cooldownSeconds ≤ 0 := by omega
    refine ⟨?_, ?_, ?_, ?_⟩
    · intro hm
      simp [getCooldownRemaining, hns, hm]
    · intro e hm he0 hen
      have hne : ¬ e = 0 := by omega
      have hrem : (e - now + 999) / 1000 ≤ 0 := by omega
      simp [getCooldownRemaining, hns, hm, hne, hrem]
    · intro e hm he0 hlt
      refine ⟨(e - now + 999) / 1000, ?_, by omega, by omega⟩
      have hne : ¬ e = 0 := by omega
      have hrem : ¬ (e - now + 999) / 1000 ≤ 0 := by omega
      simp [getCooldownRemaining, hns, hm, hne, hrem]
    · intro hnow
      constructor
      · simp [setCooldown, hns]
      · have : 1000 ≤ cfg.cooldownSeconds * 1000 := by omega
        omega

/-- Witness for C5 at concrete inputs: an expired entry is evicted and a
live entry reports its remaining time. -/
theorem C5_cooldown_gate_witness :
    getCooldownRemaining DEFAULT_CONFIG 5000
      (fun k => if k = "1:ping" then some 1000 else none) "1" "ping" =
      (0, fun k => if k = "1:ping" then none
                   else if k = "1:ping" then some 1000 else none) :=
  ((C5_cooldown_gate DEFAULT_CONFIG 5000
      (fun k => if k = "1:ping" then some 1000 else none) "1" "ping").2
    (by decide)).2.1 1000 (by simp) (by decide) (by decide)

/-- C6: if the endpoint URL or the API key is unset (empty), the responder
returns the configuration-incomplete message for every transport
behaviour whatsoever — in particular the result does not depend on the
transport, so no network call is consulted — and it returns normally. -/
theorem C6_config_incomplete (cfg : PluginConfig) (history : List Turn) (q : String)
    (h : cfg.aiApiUrl = "" ∨ cfg.aiApiKey = "") (http : AIRequest → HttpOutcome) :
    getAIResponse cfg history q http = "请先在控制台配置AI API地址和API Key" := by
  unfold getAIResponse
  rw [if_pos h]

/-- Witness for C6: the default config has an empty API key; even a
transport that would return a successful choice is ignored. -/
theorem C6_config_incomplete_witness :
    getAIResponse DEFAULT_CONFIG [] "hi"
      (fun _ => .resp 200 "OK" (.parsed ⟨none, some [⟨"yo"⟩]⟩)) =
      "请先在控制台配置AI API地址和API Key" :=
  C6_config_incomplete DEFAULT_CONFIG [] "hi" (Or.inr rfl) _

/-- C4: with a complete configuration, `getAIResponse` maps the HTTP
outcome in order: non-2xx status to the formatted request-failed string
with status and statusText; then a body with a (truthy) error field to
the formatted AI-error string using the error's message, or its raw
serialisation when the message is absent; then a body with at least one
choice to that first choice's message content verbatim; otherwise to the
fixed AI-reply-failed string. -/
theorem C4_response_mapping (cfg : PluginConfig) (history : List Turn) (q : String)
    (hurl : cfg.aiApiUrl ≠ "") (hkey : cfg.aiApiKey ≠ "") :
    (∀ (status : Int) (stext : String) (body : RespBody),
        ¬ (200 ≤ status ∧ status < 300) →
        getAIResponse cfg history q (fun _ => .resp status stext body) =
          s!"AI API请求失败 ({status}): {stext}")
    ∧ (∀ (status : Int) (stext : String) (d : RespData) (e : ErrObj),
        200 ≤ status → status < 300 → d.error = some e →
        getAIResponse cfg history q (fun _ => .resp status stext (.parsed d)) =
          "AI API错误: " ++ (if e.message = "" then e.raw else e.message))
    ∧ (∀ (status : Int) (stext : String) (d : RespData) (ch : Choice) (cs : List Choice),
        200 ≤ status → status < 300 → d.error = none → d.choices = some (ch :: cs) →
        getAIResponse cfg history q (fun _ => .resp status stext (.parsed d)) = ch.content)
    ∧ (∀ (status : Int) (stext : String) (d : RespData),
        200 ≤ status → status < 300 → d.error = none →
        (d.choices = none ∨ d.choices = some []) →
        getAIResponse cfg history q (fun _ => .resp status stext (.parsed d)) =
          "AI回复失败，请稍后再试") := by
  refine ⟨?_, ?_, ?_, ?_⟩
  · intro status stext body hbad
    simp [getAIResponse, hurl, hkey, hbad]
  · intro status stext d e h1 h2 herr
    simp [getAIResponse, hurl, hkey, h1, h2, herr]
  · intro status stext d ch cs h1 h2 herr hch
    simp [getAIResponse, hurl, hkey, h1, h2, herr, hch]
  · intro status stext d h1 h2 herr hch
    rcases hch with hn | he
    · simp [getAIResponse, hurl, hkey, h1, h2, herr, hn]
    · simp [getAIResponse, hurl, hkey, h1, h2, herr, he]

/-- Witness for C4: a 200 response with one choice is returned verbatim. -/
theorem C4_response_mapping_witness :
    getAIResponse { DEFAULT_CONFIG with aiApiKey := "k" } [] "q"
      (fun _ => .resp 200 "OK" (.parsed ⟨none, some [⟨"hello"⟩]⟩)) = "hello" :=
  (C4_response_mapping { DEFAULT_CONFIG with aiApiKey := "k" } [] "q"
      (by decide) (by decide)).2.2.1
    200 "OK" ⟨none, some [⟨"hello"⟩]⟩ ⟨"hello"⟩ [] (by decide) (by decide) rfl rfl

/-- C8: the pattern filter blocks a text exactly when some pattern in the
list compiles (the regex oracle returns a matcher) and matches the text;
a pattern that fails to compile is skipped — it never aborts the loop and
never blocks by itself. -/
theorem C8_blocked_iff_valid_pattern_matches (rc : String → Option (String → Bool))
    (patterns : List String) (text : String) :
    isBlockedByPattern rc patterns text = true ↔
      ∃ p ∈ patterns, ∃ f, rc p = some f ∧ f text = true := by
  induction patterns with
  | nil => simp [isBlockedByPattern]
  | cons p ps ih =>
    cases hrc : rc p with
    | none =>
      rw [show isBlockedByPattern rc (p :: ps) text = isBlockedByPattern rc ps text from by
        simp [isBlockedByPattern, hrc]]
      rw [ih]
      constructor
      · rintro ⟨q, hq, g, hg, hgt⟩
        exact ⟨q, List.mem_cons_of_mem _ hq, g, hg, hgt⟩
      · rintro ⟨q, hq, g, hg, hgt⟩
        rcases List.mem_cons.mp hq with rfl | hmem
        · rw [hrc] at hg
          cases hg
        · exact ⟨q, hmem, g, hg, hgt⟩
    | some f =>
      cases hft : f text with
      | false =>
        rw [show isBlockedByPattern rc (p :: ps) text = isBlockedByPattern rc ps text from by
          simp [isBlockedByPattern, hrc, hft]]
        rw [ih]
        constructor
        · rintro ⟨q, hq, g, hg, hgt⟩
          exact ⟨q, List.mem_cons_of_mem _ hq, g, hg, hgt⟩
        · rintro ⟨q, hq, g, hg, hgt⟩
          rcases List.mem_cons.mp hq with rfl | hmem
          · rw [hrc] at hg
            cases hg
            exact absurd hgt (by simp [hft])
          · exact ⟨q, hmem, g, hg, hgt⟩
      | true =>
        rw [show isBlockedByPattern rc (p :: ps) text = true from by
          simp [isBlockedByPattern, hrc, hft]]
        constructor
        · intro _
          exact ⟨p, List.mem_cons_self p ps, f, hrc, hft⟩
        · intro _
          rfl

lemma jsSlice_neg_spec {α : Type} (n : Int) (l : List α) (hn : 0 < n) :
    jsSlice (-n) l <:+ l ∧ ((jsSlice (-n) l).length : Int) ≤ n := by
  unfold jsSlice
  constructor
  · exact List.drop_suffix _ _
  · rw [List.length_drop]
    have hlt : (-n) < 0 := by omega
    rw [if_pos hlt]
    rcases le_total ((l.length : Int) + -n) 0 with hle | hge
    · rw [max_eq_right hle]
      simp
      omega
    · rw [max_eq_left hge]
      have htn : ((((l.length : Int) + -n).toNat : Int)) = (l.length : Int) + -n :=
        Int.toNat_of_nonneg hge
      omega

/-- C2: assuming `aiContextLength` is within its sanitized range `[2, 30]`,
the messages array is exactly one system turn (the configured prompt, or
the fixed default when the configured one is empty), followed by a suffix
of the stored history (the most recent turns, in stored order) of length
at most `aiContextLength`, followed by one user turn with the question. -/
theorem C2_prompt_shape (cfg : PluginConfig) (history : List Turn) (q : String)
    (h2 : 2 ≤ cfg.aiContextLength) (h30 : cfg.aiContextLength ≤ 30) :
    ∃ L : List Turn,
      buildMessages cfg history q =
        ⟨"system", if cfg.aiSystemPrompt = "" then defaultSystemPrompt else cfg.aiSystemPrompt⟩
          :: (L ++ [⟨"user", q⟩])
      ∧ L <:+ history
      ∧ (L.length : Int) ≤ cfg.aiContextLength := by
  have h := jsSlice_neg_spec cfg.aiContextLength history (by omega)
  exact ⟨jsSlice (-cfg.aiContextLength) history, rfl, h.1, h.2⟩

/-- Witness for C2: context length 2 over a 3-turn history keeps only the
last two turns between the system and user turns. -/
theorem C2_prompt_shape_witness :
    ∃ L : List Turn,
      buildMessages ({ DEFAULT_CONFIG with aiContextLength := 2 } : PluginConfig)
        [⟨"user", "a"⟩, ⟨"assistant", "b"⟩, ⟨"user", "c"⟩] "q" =
        ⟨"system",
          if ({ DEFAULT_CONFIG with aiContextLength := 2 } : PluginConfig).aiSystemPrompt = ""
          then defaultSystemPrompt
          else ({ DEFAULT_CONFIG with aiContextLength := 2 } : PluginConfig).aiSystemPrompt⟩
          :: (L ++ [⟨"user", "q"⟩])
      ∧ L <:+ [⟨"user", "a"⟩, ⟨"assistant", "b"⟩, ⟨"user", "c"⟩]
      ∧ (L.length : Int) ≤ ({ DEFAULT_CONFIG with aiContextLength := 2 } : PluginConfig).aiContextLength :=
  C2_prompt_shape _ _ _ (by decide) (by decide)

/-- C3: a group whose config has `aiEnabled` explicitly `false` makes the
pipeline return with the state completely unchanged and no reply sent —
so no command handling, no blacklist/pattern checks, no cooldown or
rate-limit mutation, no history append and no counter increment occur. -/
theorem C3_aiEnabled_false_short_circuits (env : Env) (ev : Event) (st : PState) (gid : Int)
    (hmt : ev.message_type = "group") (hgid : ev.group_id = some gid)
    (gc : GroupConfig) (hgc : st.config.groupConfigs (toString gid) = some gc)
    (hai : gc.aiEnabled = some false) :
    handleMessage env ev st = (st, []) := by
  have hdis : aiDisabled st.config (toString gid) = true := by
    simp [aiDisabled, hgc, hai]
  by_cases hz : gid = 0
  · simp [handleMessage, hmt, hgid, hz]
  · by_cases hen : isGroupEnabled st.config (toString gid)
    · simp [handleMessage, hmt, hgid, hz, hen, hdis]
    · simp [handleMessage, hmt, hgid, hz, hen]

/-- Witness for C3: a concrete `@bot hello` group event in a group whose
config sets `aiEnabled: false` produces no reply and no state change. -/
theorem C3_aiEnabled_false_short_circuits_witness :
    handleMessage
      ⟨"10", fun _ => HttpOutcome.throwErr "x", fun _ => none, 0, 0, "d"⟩
      ⟨"group", "@bot hello", some 5, some 7, none,
        .segs [⟨"at", some "10", none⟩, ⟨"text", none, some "hello"⟩]⟩
      ⟨{ DEFAULT_CONFIG with
          groupConfigs := fun k => if k = "5" then some ⟨none, some false, none⟩ else none },
        fun _ => none, fun _ => none, fun _ => [], ⟨0, 0, "d"⟩⟩ =
      (⟨{ DEFAULT_CONFIG with
          groupConfigs := fun k => if k = "5" then some ⟨none, some false, none⟩ else none },
        fun _ => none, fun _ => none, fun _ => [], ⟨0, 0, "d"⟩⟩, []) :=
  C3_aiEnabled_false_short_circuits _ _ _ 5 rfl rfl ⟨none, some false, none⟩ (by decide) rfl

lemma pickBool_default (o : Option JsVal) (d : Bool)
    (h : ∀ b, o ≠ some (.bool b)) : pickBool o d = d := by
  cases o with
  | none => rfl
  | some v => cases v <;> first | rfl | exact absurd rfl (h _)

lemma pickStr_default (o : Option JsVal) (d : String)
    (h : ∀ s, o ≠ some (.str s)) : pickStr o d = d := by
  cases o with
  | none => rfl
  | some v => cases v <;> first | rfl | exact absurd rfl (h _)

lemma pickNum_default (o : Option JsVal) (d : Int)
    (h : ∀ n, o ≠ some (.num n)) : pickNum o d = d := by
  cases o with
  | none => rfl
  | some v => cases v <;> first | rfl | exact absurd rfl (h _)

lemma pickStrList_default (o : Option JsVal) (d : List String)
    (hs : ∀ s, o ≠ some (.str s)) (ha : ∀ l, o ≠ some (.arr l)) :
    pickStrList o d = d := by
  cases o with
  | none => rfl
  | some v => cases v <;> first | rfl | exact absurd rfl (hs _) | exact absurd rfl (ha _)

lemma pickServiceType_default (o : Option JsVal) (d : String)
    (h : ∀ s, o ≠ some (.str s)) : pickServiceType o d = d := by
  cases o with
  | none => rfl
  | some v => cases v <;> first | rfl | exact absurd rfl (h _)

lemma pickCtxLen_default (o : Option JsVal)
    (h : ∀ n : Int, o ≠ some (.num n)) : pickCtxLen o = 10 := by
  cases o with
  | none => rfl
  | some v => cases v <;> first | rfl | exact absurd rfl (h _)

lemma pickCtxLen_bounds (o : Option JsVal) : 2 ≤ pickCtxLen o ∧ pickCtxLen o ≤ 30 := by
  unfold pickCtxLen
  cases o with
  | none => constructor <;> norm_num [DEFAULT_CONFIG]
  | some v =>
    cases v with
    | num n => exact ⟨le_max_left _ _, max_le (by norm_num) (min_le_left _ _)⟩
    | null => constructor <;> norm_num [DEFAULT_CONFIG]
    | bool b => constructor <;> norm_num [DEFAULT_CONFIG]
    | str s => constructor <;> norm_num [DEFAULT_CONFIG]
    | arr l => constructor <;> norm_num [DEFAULT_CONFIG]
    | obj fields => constructor <;> norm_num [DEFAULT_CONFIG]

/-- C9: `sanitizeConfig` yields defaults for a non-object input and for
every missing or mistyped field; `aiContextLength` is always in `[2, 30]`
(clamped for a supplied number, the default 10 otherwise); and the
list-valued fields `masterQqs`, `blacklistQqs` and `blockedPatterns`
accept a comma-separated string (split, trimmed, empties dropped), keep
only string elements of an array, and fall back to the empty default
otherwise. -/
theorem C9_sanitizeConfig (raw : JsVal) :
    (2 ≤ (sanitizeConfig raw).aiContextLength ∧ (sanitizeConfig raw).aiContextLength ≤ 30)
    ∧ ((∀ fs, raw ≠ JsVal.obj fs) →
        sanitizeConfig raw = { DEFAULT_CONFIG with groupConfigs := fun _ => none })
    ∧ ∀ fs, raw = JsVal.obj fs →
        ((∀ n : Int, fs.lookup "aiContextLength" = some (.num n) →
            (sanitizeConfig raw).aiContextLength = max 2 (min 30 n))
          ∧ ((∀ n : Int, fs.lookup "aiContextLength" ≠ some (.num n)) →
            (sanitizeConfig raw).aiContextLength = 10))
        ∧ (∀ s, fs.lookup "masterQqs" = some (.str s) →
            (sanitizeConfig raw).masterQqs =
              ((s.splitOn ",").map strTrim).filter (fun x => x ≠ ""))
        ∧ (∀ s, fs.lookup "blacklistQqs" = some (.str s) →
            (sanitizeConfig raw).blacklistQqs =
              ((s.splitOn ",").map strTrim).filter (fun x => x ≠ ""))
        ∧ (∀ s, fs.lookup "blockedPatterns" = some (.str s) →
            (sanitizeConfig raw).blockedPatterns =
              ((s.splitOn ",").map strTrim).filter (fun x => x ≠ ""))
        ∧ (∀ l, fs.lookup "masterQqs" = some (.arr l) →
            (sanitizeConfig raw).masterQqs = strElems l)
        ∧ (∀ l, fs.lookup "blacklistQqs" = some (.arr l) →
            (sanitizeConfig raw).blacklistQqs = strElems l)
        ∧ (∀ l, fs.lookup "blockedPatterns" = some (.arr l) →
            (sanitizeConfig raw).blockedPatterns = strElems l)
        ∧ ((∀ s, fs.lookup "masterQqs" ≠ some (.str s)) →
           (∀ l, fs.lookup "masterQqs" ≠ some (.arr l)) →
            (sanitizeConfig raw).masterQqs = [])
        ∧ ((∀ s, fs.lookup "blacklistQqs" ≠ some (.str s)) →
           (∀ l, fs.lookup "blacklistQqs" ≠ some (.arr l)) →
            (sanitizeConfig raw).blacklistQqs = [])
        ∧ ((∀ s, fs.lookup "blockedPatterns" ≠ some (.str s)) →
           (∀ l, fs.lookup "blockedPatterns" ≠ some (.arr l)) →
            (sanitizeConfig raw).blockedPatterns = [])
        ∧ ((∀ b, fs.lookup "enabled" ≠ some (.bool b)) → (sanitizeConfig raw).enabled = true)
        ∧ ((∀ b, fs.lookup "debug" ≠ some (.bool b)) → (sanitizeConfig raw).debug = false)
        ∧ ((∀ s, fs.lookup "commandPrefix" ≠ some (.str s)) →
            (sanitizeConfig raw).commandPfx = "#cmd")
        ∧ ((∀ n : Int, fs.lookup "cooldownSeconds" ≠ some (.num n)) →
            (sanitizeConfig raw).cooldownSeconds = 60)
        ∧ ((∀ s, fs.lookup "aiServiceType" ≠ some (.str s)) →
            (sanitizeConfig raw).aiServiceType = "openai")
        ∧ ((∀ s, fs.lookup "aiApiUrl" ≠ some (.str s)) →
            (sanitizeConfig raw).aiApiUrl = DEFAULT_CONFIG.aiApiUrl)
        ∧ ((∀ s, fs.lookup "aiApiKey" ≠ some (.str s)) → (sanitizeConfig raw).aiApiKey = "")
        ∧ ((∀ s, fs.lookup "aiModel" ≠ some (.str s)) →
            (sanitizeConfig raw).aiModel = "gpt-3.5-turbo")
        ∧ ((∀ s, fs.lookup "tencentBotAppKey" ≠ some (.str s)) →
            (sanitizeConfig raw).tencentBotAppKey = "")
        ∧ ((∀ s, fs.lookup "tencentVisitorBizIdPrefix" ≠ some (.str s)) →
            (sanitizeConfig raw).tencentVisitorBizIdPfx = "napcat_")
        ∧ ((∀ n : Int, fs.lookup "rateLimitPerMinute" ≠ some (.num n)) →
            (sanitizeConfig raw).rateLimitPerMinute = 10)
        ∧ ((∀ s, fs.lookup "aiSystemPrompt" ≠ some (.str s)) →
            (sanitizeConfig raw).aiSystemPrompt = DEFAULT_CONFIG.aiSystemPrompt)
        ∧ ((∀ entries, fs.lookup "groupConfigs" ≠ some (.obj entries)) →
            (sanitizeConfig raw).groupConfigs = fun _ => none) := by
  refine ⟨?_, ?_, ?_⟩
  · cases raw
    case obj fs => exact pickCtxLen_bounds (fs.lookup "aiContextLength")
    all_goals constructor <;> norm_num [sanitizeConfig, DEFAULT_CONFIG]
  · intro h
    cases raw
    case obj fs => exact absurd rfl (h fs)
    all_goals rfl
  · intro fs hr
    subst hr
    refine ⟨⟨?_, ?_⟩, ?_, ?_, ?_, ?_, ?_, ?_, ?_, ?_, ?_, ?_, ?_, ?_, ?_, ?_, ?_, ?_,
      ?_, ?_, ?_, ?_, ?_, ?_⟩
    · intro n hn
      show pickCtxLen (fs.lookup "aiContextLength") = max 2 (min 30 n)
      rw [hn]
      rfl
    · intro h
      exact pickCtxLen_default _ h
    · intro s hs
      show pickStrList (fs.lookup "masterQqs") DEFAULT_CONFIG.masterQqs = _
      rw [hs]
      rfl
    · intro s hs
      show pickStrList (fs.lookup "blacklistQqs") DEFAULT_CONFIG.blacklistQqs = _
      rw [hs]
      rfl
    · intro s hs
      show pickStrList (fs.lookup "blockedPatterns") DEFAULT_CONFIG.blockedPatterns = _
      rw [hs]
      rfl
    · intro l hl
      show pickStrList (fs.lookup "masterQqs") DEFAULT_CONFIG.masterQqs = _
      rw [hl]
      rfl
    · intro l hl
      show pickStrList (fs.lookup "blacklistQqs") DEFAULT_CONFIG.blacklistQqs = _
      rw [hl]
      rfl
    · intro l hl
      show pickStrList (fs.lookup "blockedPatterns") DEFAULT_CONFIG.blockedPatterns = _
      rw [hl]
      rfl
    · intro hs ha
      exact pickStrList_default _ _ hs ha
    · intro hs ha
      exact pickStrList_default _ _ hs ha
    · intro hs ha
      exact pickStrList_default _ _ hs ha
    · intro h
      exact pickBool_default _ _ h
    · intro h
      exact pickBool_default _ _ h
    · intro h
      exact pickStr_default _ _ h
    · intro h
      exact pickNum_default _ _ h
    · intro h
      exact pickServiceType_default _ _ h
    · intro h
      exact pickStr_default _ _ h
    · intro h
      exact pickStr_default _ _ h
    · intro h
      exact pickStr_default _ _ h
    · intro h
      exact pickStr_default _ _ h
    · intro h
      exact pickStr_default _ _ h
    · intro h
      exact pickNum_default _ _ h
    · intro h
      exact pickStr_default _ _ h
    · intro h
      show sanitizeGroupConfigs (fs.lookup "groupConfigs") = fun _ => none
      cases ho : fs.lookup "groupConfigs" with
      | none => rfl
      | some v => cases v <;> first | rfl | exact absurd ho (h _)

/-- Witness for C9: an out-of-range `aiContextLength` of 100 is clamped. -/
theorem C9_sanitizeConfig_witness :
    (sanitizeConfig (JsVal.obj [("aiContextLength", JsVal.num 100)])).aiContextLength =
      max 2 (min 30 (100 : Int)) :=
  (((C9_sanitizeConfig (JsVal.obj [("aiContextLength", JsVal.num 100)])).2.2
      [("aiContextLength", JsVal.num 100)] rfl).1).1 100 rfl

/-- C7: exceptional transport behaviours never escape.  A `fetch` that
throws, and a body whose JSON parse throws, are each converted by the
responder's catch into the formatted `AI回复失败: <message>` string
(first two conjuncts); and when such a transport failure occurs on the
full AI path, `handleMessage` completes normally, sending exactly that
formatted string as an ordinary reply and recording it in history as the
assistant turn (third conjunct) — no exception reaches the caller, which
the totality of the model over all `HttpOutcome` values makes explicit. -/
theorem C7_exceptions_become_replies :
    (∀ (cfg : PluginConfig) (history : List Turn) (q m : String),
        cfg.aiApiUrl ≠ "" → cfg.aiApiKey ≠ "" →
        getAIResponse cfg history q (fun _ => .throwErr m) = "AI回复失败: " ++ m)
    ∧ (∀ (cfg : PluginConfig) (history : List Turn) (q m : String)
         (status : Int) (stext : String),
        cfg.aiApiUrl ≠ "" → cfg.aiApiKey ≠ "" → 200 ≤ status → status < 300 →
        getAIResponse cfg history q (fun _ => .resp status stext (.parseFail m)) =
          "AI回复失败: " ++ m)
    ∧ ∀ (env : Env) (ev : Event) (st : PState) (gid : Int) (m : String),
        ev.message_type = "group" → ev.group_id = some gid → gid ≠ 0 →
        isGroupEnabled st.config (toString gid) = true →
        aiDisabled st.config (toString gid) = false →
        strStartsWith ev.raw_message
          (if st.config.commandPfx = "" then "#cmd" else st.config.commandPfx) = false →
        isAtBot env.selfId ev.message = true →
        st.config.blacklistQqs.contains (userIdStr ev) = false →
        isBlockedByPattern env.regex st.config.blockedPatterns ev.raw_message = false →
        extractQuestion ev.message ≠ "" →
        (checkRateLimit st.config env.now st.rateLimitMap (toString gid)).1 = false →
        st.config.aiApiUrl ≠ "" → st.config.aiApiKey ≠ "" →
        env.http = (fun _ => .throwErr m) →
        handleMessage env ev st =
          ({ st with
              rateLimitMap := (checkRateLimit st.config env.now st.rateLimitMap (toString gid)).2,
              historyMap := addMessageToHistory
                (addMessageToHistory st.historyMap (toString gid) "user"
                  (extractQuestion ev.message))
                (toString gid) "assistant" ("AI回复失败: " ++ m),
              stats := incrementProcessed env.today st.stats },
           ["AI回复失败: " ++ m]) := by
  refine ⟨?_, ?_, ?_⟩
  · intro cfg history q m hurl hkey
    simp [getAIResponse, hurl, hkey]
  · intro cfg history q m status stext hurl hkey h1 h2
    simp [getAIResponse, hurl, hkey, h1, h2]
  · intro env ev st gid m hmt hgid hz hen hdis hpfx hat hbl hpat hq hrate hurl hkey hhttp
    have hai : getAIResponse st.config (st.historyMap (toString gid))
        (extractQuestion ev.message) env.http = "AI回复失败: " ++ m := by
      rw [hhttp]
      simp [getAIResponse, hurl, hkey]
    have hbl' : userIdStr ev ∉ st.config.blacklistQqs := by
      simpa using hbl
    simp [handleMessage, hmt, hgid, hz, hen, hdis, hpfx, hat, hbl', hpat, hq, hrate, hai]

/-- Witness for C7: a concrete `@bot` event whose transport throws
produces the single reply `AI回复失败: boom`, appended to history, with
the pipeline terminating normally. -/
theorem C7_exceptions_become_replies_witness :
    handleMessage
      ⟨"10", fun _ => HttpOutcome.throwErr "boom", fun _ => none, 0, 0, "d"⟩
      ⟨"group", "hello", some 5, some 7, none,
        .segs [⟨"at", some "10", none⟩, ⟨"text", none, some "hello"⟩]⟩
      ⟨{ DEFAULT_CONFIG with aiApiKey := "k" }, fun _ => none, fun _ => none, fun _ => [],
        ⟨0, 0, "d"⟩⟩ =
      (⟨{ DEFAULT_CONFIG with aiApiKey := "k" }, fun _ => none,
        (checkRateLimit { DEFAULT_CONFIG with aiApiKey := "k" } 0 (fun _ => none)
          (toString (5 : Int))).2,
        addMessageToHistory
          (addMessageToHistory (fun _ => []) (toString (5 : Int)) "user" "hello")
          (toString (5 : Int)) "assistant" "AI回复失败: boom",
        incrementProcessed "d" ⟨0, 0, "d"⟩⟩,
       ["AI回复失败: boom"]) := by
  have h := C7_exceptions_become_replies.2.2
    ⟨"10", fun _ => HttpOutcome.throwErr "boom", fun _ => none, 0, 0, "d"⟩
    ⟨"group", "hello", some 5, some 7, none,
      .segs [⟨"at", some "10", none⟩, ⟨"text", none, some "hello"⟩]⟩
    ⟨{ DEFAULT_CONFIG with aiApiKey := "k" }, fun _ => none, fun _ => none, fun _ => [],
      ⟨0, 0, "d"⟩⟩
    5 "boom" rfl rfl (by decide) rfl rfl (by decide) rfl rfl rfl (by decide) rfl
    (by decide) (by decide) rfl
  exact h

end NapcatAichat
